import Mathlib

/-!
Shallow embedding of `plugins/vpc-shared-eni/network/bridge_windows.go`
(the Windows bridge builder of the amazon-vpc-cni-plugins repository).

The builder talks to the Windows Host Networking Service (HNS).  The HNS
world is modelled by an explicit state (`HNSState`: the networks and
endpoints that currently exist, keyed by name) together with an oracle
(`HNSOracle`: the outcomes of the calls whose results are not determined
by that state — attach/detach, namespace membership, the globals query,
and whether a create/delete request is accepted).  Every operation returns
its Go `error` result (`Except GoError`), the updated state, and the exact
sequence of HNS requests it issued (`List HNSCall`), so that ordering and
rollback properties can be stated.
-/

namespace BridgeWindows

/-- An IP address as the Go `net.IP` type is used here: either an IPv4
address (four octets) or a non-IPv4 address.  `net.IP.To4` returns nil
exactly for the non-IPv4 case. -/
inductive IPAddr where
  | v4 (a b c d : Nat)
  | v6 (rendered : String)
  deriving DecidableEq, Repr

/-- `net.IP.To4`: `some` of the four octets for an IPv4 address, `none`
otherwise. -/
def IPAddr.to4 : IPAddr → Option (Nat × Nat × Nat × Nat)
  | .v4 a b c d => some (a, b, c, d)
  | .v6 _ => none

/-- `net.IP.String()`. -/
def IPAddr.render : IPAddr → String
  | .v4 a b c d =>
      toString a ++ "." ++ toString b ++ "." ++ toString c ++ "." ++ toString d
  | .v6 s => s

/-- A `net.IPNet`: an address together with its mask, kept as the prefix
length (`Mask.Size()` returns the leading-ones count used at line 187). -/
structure IPNet where
  ip : IPAddr
  prefixLen : Nat
  deriving DecidableEq, Repr

/-- `net.IPNet.String()`: "a.b.c.d/n". -/
def IPNet.render (n : IPNet) : String :=
  n.ip.render ++ "/" ++ toString n.prefixLen

/-- Mask an IPv4 value (as four octets) to its leading `p` bits. -/
def maskV4 (a b c d p : Nat) : Nat × Nat × Nat × Nat :=
  let v := ((a * 256 + b) * 256 + c) * 256 + d
  let shift := 2 ^ (32 - p)
  let m := v / shift * shift
  (m / 2 ^ 24 % 256, m / 2 ^ 16 % 256, m / 2 ^ 8 % 256, m % 256)

/-- Modelled from the spec: `vpc.GetSubnetPrefix` (package `network/vpc`,
whose source is not under src/) — "the interface's own subnet prefix":
the address of `n` with its host bits cleared, keeping the same mask. -/
def GetSubnetPrefix (n : IPNet) : IPNet :=
  match n.ip with
  | .v4 a b c d =>
      let q := maskV4 a b c d n.prefixLen
      { ip := .v4 q.1 q.2.1 q.2.2.1 q.2.2.2, prefixLen := n.prefixLen }
  | .v6 _ => n

/-- `nsType` of bridge_windows.go: the namespace type of a container. -/
inductive nsType where
  | infraContainerNS
  | appContainerNS
  | hcnNamespace
  deriving DecidableEq, Repr

/-- The `Network` struct of the vpc-shared-eni network package, with the
fields bridge_windows.go reads.  `SharedENIMACAddress` and
`SharedENILinkName` stand for `SharedENI.GetMACAddress().String()` and
`SharedENI.GetLinkName()`.  `VPCCIDRs` is `none` for a nil Go slice and
`some` for a non-nil one (the code distinguishes the two at line 192). -/
structure Network where
  Name : String
  BridgeNetNSPath : String
  SharedENIMACAddress : String
  SharedENILinkName : String
  ENIIPAddresses : List IPNet
  GatewayIPAddress : IPAddr
  VPCCIDRs : Option (List IPNet)
  ServiceCIDR : String
  DNSSuffixSearchList : List String
  DNSServers : List String
  deriving Repr

/-- The `Endpoint` struct, with the fields bridge_windows.go reads and the
`MACAddress` output field it writes (`none` models a nil `net.HardwareAddr`). -/
structure Endpoint where
  ContainerID : String
  NetNSName : String
  IPAddresses : List IPNet
  MACAddress : Option String
  deriving Repr

/-- A Go error value, or a Go runtime panic propagated out of the call
(`goPanic` — panics are not `error` values, but both end the call; the
distinct constructor keeps them tellable apart). -/
inductive GoError where
  | errorf (msg : String)
  | errComputeSystemDoesNotExist
  | hnsFailure (msg : String)
  | goPanic (msg : String)
  deriving DecidableEq, Repr

/-- Go slice indexing: `xs[i]` panics with an index-out-of-range runtime
error when `i` is out of bounds. -/
def goIndex {α : Type} (xs : List α) (i : Nat) : Except GoError α :=
  match xs.get? i with
  | some x => .ok x
  | none => .error (GoError.goPanic "runtime error: index out of range")

/-- One HNS request, as issued to the control service.  `networkRequest`
and `endpointRequest` carry the HTTP-like method and path of
`hcsshim.HNSNetworkRequest` / `hcsshim.HNSEndpointRequest`. -/
inductive HNSCall where
  | getHNSGlobals
  | getNetworkByName (name : String)
  | networkRequest (method requestPath : String)
  | getEndpointByName (name : String)
  | endpointRequest (method requestPath : String)
  | hotAttachEndpoint (containerID endpointID : String)
  | hotDetachEndpoint (containerID endpointID : String)
  | getNamespaceEndpointIds (netNSName : String)
  | addNamespaceEndpoint (netNSName endpointID : String)
  | removeNamespaceEndpoint (netNSName endpointID : String)
  deriving DecidableEq, Repr

/-- An `hcsshim.Subnet`. -/
structure HNSSubnet where
  AddressPrefix : String
  GatewayAddress : String
  deriving DecidableEq, Repr

/-- An `hcsshim.HNSNetwork` record (`hnsType` is the Go field `Type`). -/
structure HNSNetwork where
  Name : String
  Id : String
  hnsType : String
  NetworkAdapterName : String
  Subnets : List HNSSubnet
  deriving DecidableEq, Repr

/-- An endpoint policy: `hcsshim.OutboundNatPolicy` or the local
`hnsRoutePolicy`.  The Go code serializes these to JSON blobs appended to
`Policies`; the structured value is kept instead of its rendering. -/
inductive HNSPolicy where
  | outboundNat (Exceptions : List String)
  | route (DestinationPrefix : String) (NeedEncap : Bool)
  deriving DecidableEq, Repr

/-- An `hcsshim.HNSEndpoint` record. -/
structure HNSEndpoint where
  Name : String
  Id : String
  VirtualNetworkName : String
  DNSSuffix : String
  DNSServerList : String
  IPAddress : IPAddr
  PrefixLength : Nat
  MacAddress : String
  Policies : List HNSPolicy
  deriving DecidableEq, Repr

/-- An `hcsshim.HNSVersion`: the HNS global version. -/
structure HNSVersion where
  Major : Nat
  Minor : Nat
  deriving DecidableEq, Repr

/-- `hcsshim.HNSVersion1803`, the fixed minimum version bound to
`hnsMinVersion` at line 54 (an external constant of the hcsshim library;
the claims depend only on how the comparison uses it). -/
def hnsMinVersion : HNSVersion := { Major := 7, Minor := 2 }

/-- The objects currently existing in HNS, keyed by their names. -/
structure HNSState where
  networks : List HNSNetwork
  endpoints : List HNSEndpoint
  deriving Repr

/-- Outcomes of the HNS calls that are not determined by `HNSState`:
`none` / `.ok` means the call succeeded.  Create requests yield the
HNS-assigned fields (network Id; endpoint Id and MAC address). -/
structure HNSOracle where
  getHNSGlobals : Except GoError HNSVersion
  hotAttachEndpoint : String → String → Option GoError
  hotDetachEndpoint : String → String → Option GoError
  getNamespaceEndpointIds : String → Except GoError (List String)
  addNamespaceEndpoint : String → String → Option GoError
  removeNamespaceEndpoint : String → String → Option GoError
  createNetworkResult : HNSNetwork → Except GoError String
  createEndpointResult : HNSEndpoint → Except GoError (String × String)
  deleteNetworkResult : String → Option GoError
  deleteEndpointResult : String → Option GoError

/-- `hcsshim.GetHNSNetworkByName`: resolve a network by name in the
current state; an error signals not-found. -/
def getHNSNetworkByName (s : HNSState) (name : String) : Except GoError HNSNetwork :=
  match s.networks.find? (fun n => n.Name == name) with
  | some n => .ok n
  | none => .error (GoError.hnsFailure ("network " ++ name ++ " not found"))

/-- `hcsshim.GetHNSEndpointByName`. -/
def getHNSEndpointByName (s : HNSState) (name : String) : Except GoError HNSEndpoint :=
  match s.endpoints.find? (fun e => e.Name == name) with
  | some e => .ok e
  | none => .error (GoError.hnsFailure ("endpoint " ++ name ++ " not found"))

/-- Remove an endpoint record by Id (the effect of a successful DELETE). -/
def removeEndpointById (s : HNSState) (id : String) : HNSState :=
  { s with endpoints := s.endpoints.filter (fun e => e.Id != id) }

/-- `strings.HasPrefix`, computed on the character lists (so that it
evaluates by kernel reduction). -/
def hasPrefixStr (s pre : String) : Bool :=
  pre.data.isPrefixOf s.data

/-- `strings.TrimPrefix`: drop `pre` from the front of `s` when present,
otherwise return `s` unchanged. -/
def trimPrefixStr (s pre : String) : String :=
  if hasPrefixStr s pre then ⟨s.data.drop pre.data.length⟩ else s

/-- `strings.Replace(s, ":", "", -1)`: remove every colon. -/
def removeAllColons (s : String) : String :=
  ⟨s.data.filter (fun c => c ≠ ':')⟩

/-- Split a character list on a separator character (the effect of
`strings.Split` / `s.splitOn` for a one-character separator). -/
def splitOnChar (sep : Char) : List Char → List (List Char)
  | [] => [[]]
  | c :: cs =>
      match splitOnChar sep cs with
      | [] => [[c]]
      | g :: gs => if c = sep then [] :: g :: gs else (c :: g) :: gs

/-- `net.ParseMAC` restricted to the colon-separated six-octet form that
HNS reports; `none` models the discarded parse error leaving a nil
`MACAddress` (lines 167/285 discard the error with `_`). -/
def parseMAC (s : String) : Option String :=
  let parts := splitOnChar ':' s.data
  if parts.length == 6
      && parts.all (fun p => p.length == 2 && p.all (fun c => c.isDigit
            || ('a' ≤ c && c ≤ 'f') || ('A' ≤ c && c ≤ 'F'))) then
    some s
  else
    none

/-- `getNamespaceIdentifier` (lines 388-425): classify the endpoint's
namespace reference and derive the namespace identifier. -/
def getNamespaceIdentifier (ep : Endpoint) : nsType × String :=
  let containerPfx : String := "container:"
  if ep.NetNSName = "none" ∨ ep.NetNSName = "" then
    (nsType.infraContainerNS, ep.ContainerID)
  else if hasPrefixStr ep.NetNSName containerPfx then
    (nsType.appContainerNS, trimPrefixStr ep.NetNSName containerPfx)
  else
    (nsType.hcnNamespace, ep.NetNSName)

/-- `generateHNSNetworkName` (lines 448-452): "%sbr%s" of the configured
name and the MAC of the shared ENI with colons removed. -/
def generateHNSNetworkName (nw : Network) : String :=
  let id := removeAllColons nw.SharedENIMACAddress
  nw.Name ++ "br" ++ id

/-- `generateHNSEndpointName` (lines 455-462): "cid-%s" of the namespace
identifier, falling back to the container ID when it is empty. -/
def generateHNSEndpointName (ep : Endpoint) (id : String) : String :=
  let id' := if id = "" then ep.ContainerID else id
  "cid-" ++ id'

/-- Whether a reported HNS version is supported (the condition at lines
437-438). -/
def hnsVersionSupported (v : HNSVersion) : Bool :=
  decide (v.Major > hnsMinVersion.Major ∨
    (v.Major = hnsMinVersion.Major ∧ v.Minor ≥ hnsMinVersion.Minor))

/-- `checkHNSVersion` (lines 428-445): query the HNS globals and reject a
version older than `hnsMinVersion`. -/
def checkHNSVersion (o : HNSOracle) : Except GoError Unit × List HNSCall :=
  match o.getHNSGlobals with
  | .error e => (.error e, [HNSCall.getHNSGlobals])
  | .ok v =>
      if hnsVersionSupported v then
        (.ok (), [HNSCall.getHNSGlobals])
      else
        (.error (GoError.errorf "HNS is older than the minimum supported version"),
         [HNSCall.getHNSGlobals])

/-- The HNS network spec built at lines 90-101: L2 bridge on the shared
ENI's adapter, one subnet with the ENI's subnet prefix and the gateway. -/
def hnsNetworkSpec (nw : Network) (addr0 : IPNet) : HNSNetwork := {
  Name := generateHNSNetworkName nw
  Id := ""
  hnsType := "l2bridge"
  NetworkAdapterName := nw.SharedENILinkName
  Subnets := [{ AddressPrefix := (GetSubnetPrefix addr0).render,
                GatewayAddress := nw.GatewayIPAddress.render }] }

/-- `FindOrCreateNetwork` (lines 69-120).  Returns the Go error result,
the HNS state after the call, and the sequence of HNS requests issued. -/
def FindOrCreateNetwork (o : HNSOracle) (s : HNSState) (nw : Network) :
    Except GoError Unit × HNSState × List HNSCall :=
  -- Check that the HNS version is supported (line 71).
  match checkHNSVersion o with
  | (.error e, tr) => (.error e, s, tr)
  | (.ok _, tr) =>
      -- HNS does not support virtual switches outside the host compartment (line 77).
      if nw.BridgeNetNSPath ≠ "" then
        (.error (GoError.errorf "Bridge must be in host network namespace on Windows"), s, tr)
      else
        -- Check if the network already exists (lines 82-87).
        let networkName := generateHNSNetworkName nw
        let tr1 := tr ++ [HNSCall.getNetworkByName networkName]
        match getHNSNetworkByName s networkName with
        | .ok _ => (.ok (), s, tr1)
        | .error _ =>
            -- Initialize the HNS network (lines 90-101); nw.ENIIPAddresses[0]
            -- is a raw Go index.
            match goIndex nw.ENIIPAddresses 0 with
            | .error p => (.error p, s, tr1)
            | .ok addr0 =>
                let hnsNetwork := hnsNetworkSpec nw addr0
                -- Create the HNS network (line 111).
                let tr2 := tr1 ++ [HNSCall.networkRequest "POST" ""]
                match o.createNetworkResult hnsNetwork with
                | .error e => (.error e, s, tr2)
                | .ok newId =>
                    (.ok (),
                     { s with networks := s.networks ++ [{ hnsNetwork with Id := newId }] },
                     tr2)

/-- Remove a network record by Id (the effect of a successful DELETE). -/
def removeNetworkById (s : HNSState) (id : String) : HNSState :=
  { s with networks := s.networks.filter (fun n => n.Id != id) }

/-- `DeleteNetwork` (lines 123-139). -/
def DeleteNetwork (o : HNSOracle) (s : HNSState) (nw : Network) :
    Except GoError Unit × HNSState × List HNSCall :=
  let networkName := generateHNSNetworkName nw
  let tr0 := [HNSCall.getNetworkByName networkName]
  match getHNSNetworkByName s networkName with
  | .error e => (.error e, s, tr0)
  | .ok hnsNetwork =>
      let tr1 := tr0 ++ [HNSCall.networkRequest "DELETE" hnsNetwork.Id]
      match o.deleteNetworkResult hnsNetwork.Id with
      | some e => (.error e, s, tr1)   -- logged, and still returned (line 138)
      | none => (.ok (), removeNetworkById s hnsNetwork.Id, tr1)

/-- `attachEndpointV1` (lines 336-346): legacy hot-attach of an endpoint
to a container. -/
def attachEndpointV1 (o : HNSOracle) (hnsEp : HNSEndpoint) (containerID : String) :
    Except GoError Unit × List HNSCall :=
  match o.hotAttachEndpoint containerID hnsEp.Id with
  | some e => (.error e, [HNSCall.hotAttachEndpoint containerID hnsEp.Id])
  | none => (.ok (), [HNSCall.hotAttachEndpoint containerID hnsEp.Id])

/-- `attachEndpointV2` (lines 349-372): add an endpoint to an HCN
namespace, skipping the add when it is already a member. -/
def attachEndpointV2 (o : HNSOracle) (hnsEp : HNSEndpoint) (netNSName : String) :
    Except GoError Unit × List HNSCall :=
  let tr0 := [HNSCall.getNamespaceEndpointIds netNSName]
  match o.getNamespaceEndpointIds netNSName with
  | .error e => (.error e, tr0)
  | .ok nsEndpoints =>
      if nsEndpoints.contains hnsEp.Id then
        (.ok (), tr0)
      else
        match o.addNamespaceEndpoint netNSName hnsEp.Id with
        | some e => (.error e, tr0 ++ [HNSCall.addNamespaceEndpoint netNSName hnsEp.Id])
        | none => (.ok (), tr0 ++ [HNSCall.addNamespaceEndpoint netNSName hnsEp.Id])

/-- `addEndpointPolicy` (lines 375-385): append a policy to the endpoint
spec.  The Go version JSON-marshals the policy first; marshalling these
closed policy shapes cannot fail, so the error branch is dead. -/
def addEndpointPolicy (hnsEp : HNSEndpoint) (policy : HNSPolicy) : HNSEndpoint :=
  { hnsEp with Policies := hnsEp.Policies ++ [policy] }

/-- The SNAT exception list of lines 190-204: the ENI's own subnet prefix
when `VPCCIDRs` is nil, otherwise every VPC CIDR in order; the service
CIDR is appended when configured.  `nw.ENIIPAddresses[0]` at line 194 is
a raw Go index. -/
def computeSnatExceptions (nw : Network) : Except GoError (List String) :=
  match nw.VPCCIDRs with
  | none =>
      match goIndex nw.ENIIPAddresses 0 with
      | .error p => .error p
      | .ok a0 => .ok (if nw.ServiceCIDR ≠ ""
          then [(GetSubnetPrefix a0).render, nw.ServiceCIDR]
          else [(GetSubnetPrefix a0).render])
  | some cidrs =>
      let base := cidrs.map IPNet.render
      .ok (if nw.ServiceCIDR ≠ "" then base ++ [nw.ServiceCIDR] else base)

/-- Lines 177-247: build the endpoint creation spec — base fields, the
OutboundNAT policy, and (when a service CIDR is configured) the two
encapsulated route policies.  `nw.ENIIPAddresses[0]` at line 240 is a raw
Go index. -/
def buildHNSEndpointSpec (nw : Network) (endpointName : String) (addr0 : IPNet) :
    Except GoError HNSEndpoint :=
  let spec0 : HNSEndpoint := {
    Name := endpointName
    Id := ""
    VirtualNetworkName := generateHNSNetworkName nw
    DNSSuffix := String.intercalate "," nw.DNSSuffixSearchList
    DNSServerList := String.intercalate "," nw.DNSServers
    IPAddress := addr0.ip
    PrefixLength := addr0.prefixLen
    MacAddress := ""
    Policies := [] }
  match computeSnatExceptions nw with
  | .error p => .error p
  | .ok snatExceptions =>
      let spec1 := addEndpointPolicy spec0 (HNSPolicy.outboundNat snatExceptions)
      if nw.ServiceCIDR ≠ "" then
        -- Route policy for the service subnet (lines 223-229).
        let spec2 := addEndpointPolicy spec1 (HNSPolicy.route nw.ServiceCIDR true)
        -- Route policy for the host primary IP address (lines 236-242).
        match goIndex nw.ENIIPAddresses 0 with
        | .error p => .error p
        | .ok e0 =>
            .ok (addEndpointPolicy spec2 (HNSPolicy.route (e0.ip.render ++ "/32") true))
      else
        .ok spec1

/-- The attach step of lines 266-272: hot-attach for an Infra container,
namespace-add for an HCN namespace, nothing otherwise. -/
def attachNewEndpoint (o : HNSOracle) (nst : nsType) (rsp : HNSEndpoint)
    (containerID namespaceIdentifier : String) : Except GoError Unit × List HNSCall :=
  if nst = nsType.infraContainerNS then
    attachEndpointV1 o rsp containerID
  else if nst = nsType.hcnNamespace then
    attachEndpointV2 o rsp namespaceIdentifier
  else
    (.ok (), [])

/-- `FindOrCreateEndpoint` (lines 142-288).  Returns the Go error result,
the endpoint argument as mutated by the call (its `MACAddress` output
field), the HNS state after the call, and the issued request sequence. -/
def FindOrCreateEndpoint (o : HNSOracle) (s : HNSState) (nw : Network) (ep : Endpoint) :
    Except GoError Unit × Endpoint × HNSState × List HNSCall :=
  -- Single-IPv4-address validation (lines 143-146); `ep.IPAddresses[0]`
  -- is a raw Go index reached whenever the length test is false.
  if ep.IPAddresses.length > 1 then
    (.error (GoError.errorf "Only a single IPv4 address per endpoint is supported on Windows"),
     ep, s, [])
  else
    match goIndex ep.IPAddresses 0 with
    | .error p => (.error p, ep, s, [])
    | .ok addr0 =>
        if addr0.ip.to4 = none then
          (.error (GoError.errorf "Only a single IPv4 address per endpoint is supported on Windows"),
           ep, s, [])
        else
          -- Query the namespace identifier (line 149).
          let nst := (getNamespaceIdentifier ep).1
          let namespaceIdentifier := (getNamespaceIdentifier ep).2
          -- Check if the endpoint already exists (lines 152-153).
          let endpointName := generateHNSEndpointName ep namespaceIdentifier
          let tr0 := [HNSCall.getEndpointByName endpointName]
          match getHNSEndpointByName s endpointName with
          | .ok hnsEndpoint =>
              -- Existing endpoint (lines 154-168): benign duplicate for
              -- Infra/HCN, legacy re-attach for App; the MACAddress output
              -- field is written on both paths before returning.
              let att : Except GoError Unit × List HNSCall :=
                if nst = nsType.infraContainerNS ∨ nst = nsType.hcnNamespace then
                  (.ok (), [])
                else
                  attachEndpointV1 o hnsEndpoint ep.ContainerID
              (att.1, { ep with MACAddress := parseMAC hnsEndpoint.MacAddress }, s,
               tr0 ++ att.2)
          | .error _ =>
              if nst ≠ nsType.infraContainerNS ∧ nst ≠ nsType.hcnNamespace then
                -- Missing prerequisite endpoint for an App attach (lines 170-174).
                (.error (GoError.errorf ("failed to find endpoint " ++ endpointName)),
                 ep, s, tr0)
              else
                -- Build the endpoint spec with its policies (lines 177-247).
                match buildHNSEndpointSpec nw endpointName addr0 with
                | .error p => (.error p, ep, s, tr0)
                | .ok hnsEndpointSpec =>
                    -- Create the HNS endpoint (line 258).
                    let tr1 := tr0 ++ [HNSCall.endpointRequest "POST" ""]
                    match o.createEndpointResult hnsEndpointSpec with
                    | .error e => (.error e, ep, s, tr1)
                    | .ok (newId, newMac) =>
                        let hnsResponse :=
                          { hnsEndpointSpec with Id := newId, MacAddress := newMac }
                        let s1 := { s with endpoints := s.endpoints ++ [hnsResponse] }
                        -- Attach (lines 267-272).
                        let att := attachNewEndpoint o nst hnsResponse
                          ep.ContainerID namespaceIdentifier
                        match att.1 with
                        | .error attachErr =>
                            -- Cleanup the failed endpoint (lines 273-282): delete,
                            -- log a delete failure, return the attach error.
                            let tr2 := tr1 ++ att.2 ++
                              [HNSCall.endpointRequest "DELETE" newId]
                            match o.deleteEndpointResult newId with
                            | some _ => (.error attachErr, ep, s1, tr2)
                            | none => (.error attachErr, ep, removeEndpointById s1 newId, tr2)
                        | .ok _ =>
                            -- Return the interface MAC address (line 285).
                            (.ok (), { ep with MACAddress := parseMAC hnsResponse.MacAddress },
                             s1, tr1 ++ att.2)

/-- The endpoint DELETE step of lines 325-332: log the failure, and still
return the control service's error. -/
def deleteEndpointObject (o : HNSOracle) (s : HNSState) (hnsEp : HNSEndpoint)
    (tr : List HNSCall) : Except GoError Unit × HNSState × List HNSCall :=
  let tr1 := tr ++ [HNSCall.endpointRequest "DELETE" hnsEp.Id]
  match o.deleteEndpointResult hnsEp.Id with
  | some e => (.error e, s, tr1)
  | none => (.ok (), removeEndpointById s hnsEp.Id, tr1)

/-- `DeleteEndpoint` (lines 291-333).  The `nw` argument is unused, as in
the source. -/
def DeleteEndpoint (o : HNSOracle) (s : HNSState) (_nw : Network) (ep : Endpoint) :
    Except GoError Unit × HNSState × List HNSCall :=
  -- Query the namespace identifier (line 293).
  let nst := (getNamespaceIdentifier ep).1
  let namespaceIdentifier := (getNamespaceIdentifier ep).2
  -- Find the HNS endpoint (lines 296-300).
  let endpointName := generateHNSEndpointName ep namespaceIdentifier
  let tr0 := [HNSCall.getEndpointByName endpointName]
  match getHNSEndpointByName s endpointName with
  | .error e => (.error e, s, tr0)
  | .ok hnsEndpoint =>
      if nst = nsType.hcnNamespace then
        -- HCN detach failures are logged and ignored (lines 304-311).
        let tr1 := tr0 ++ [HNSCall.removeNamespaceEndpoint namespaceIdentifier hnsEndpoint.Id]
        deleteEndpointObject o s hnsEndpoint tr1
      else
        -- Legacy hot-detach (lines 313-316): fatal unless the compute
        -- system is already gone.
        let tr1 := tr0 ++ [HNSCall.hotDetachEndpoint ep.ContainerID hnsEndpoint.Id]
        match o.hotDetachEndpoint ep.ContainerID hnsEndpoint.Id with
        | some e =>
            if e ≠ GoError.errComputeSystemDoesNotExist then
              (.error e, s, tr1)
            else if nst = nsType.appContainerNS then
              -- App containers do not own the endpoint (lines 319-322).
              (.ok (), s, tr1)
            else
              deleteEndpointObject o s hnsEndpoint tr1
        | none =>
            if nst = nsType.appContainerNS then
              (.ok (), s, tr1)
            else
              deleteEndpointObject o s hnsEndpoint tr1

/-! ### Spec-side definitions (written from the spec's words, for
comparison with the definitions above) and concrete fixtures. -/

/-- Namespace classification exactly as the spec's words describe it:
empty or the literal "none" yields Infra with the container identifier;
a "container:" prefix yields App with the prefix stripped; every other
non-empty string yields NamespaceHandle with the string itself. -/
def specNamespaceClassification (netNSName containerID : String) : nsType × String :=
  if netNSName = "" ∨ netNSName = "none" then
    (nsType.infraContainerNS, containerID)
  else if hasPrefixStr netNSName "container:" then
    (nsType.appContainerNS, ⟨netNSName.data.drop "container:".data.length⟩)
  else
    (nsType.hcnNamespace, netNSName)

/-- The lexicographic "strictly older than" order on HNS versions used by
the spec's description of the version gate. -/
abbrev versionLexLt (a b : HNSVersion) : Prop :=
  a.Major < b.Major ∨ (a.Major = b.Major ∧ a.Minor < b.Minor)

/-- An oracle in which every HNS call succeeds and the reported version
is exactly the minimum supported one. -/
def baseOracle : HNSOracle := {
  getHNSGlobals := .ok { Major := 7, Minor := 2 }
  hotAttachEndpoint := fun _ _ => none
  hotDetachEndpoint := fun _ _ => none
  getNamespaceEndpointIds := fun _ => .ok []
  addNamespaceEndpoint := fun _ _ => none
  removeNamespaceEndpoint := fun _ _ => none
  createNetworkResult := fun _ => .ok "netid-1"
  createEndpointResult := fun _ => .ok ("epid-1", "aa:bb:cc:dd:ee:ff")
  deleteNetworkResult := fun _ => none
  deleteEndpointResult := fun _ => none }

/-- The base oracle with a failing legacy hot-attach. -/
def attachFailOracle : HNSOracle :=
  { baseOracle with hotAttachEndpoint := fun _ _ => some (GoError.hnsFailure "attach failed") }

/-- An HNS state with no objects. -/
def emptyState : HNSState := { networks := [], endpoints := [] }

/-- A network input: one ENI address 10.0.0.5/24, no VPC CIDR list, no
service CIDR. -/
def nwBase : Network := {
  Name := "vpc"
  BridgeNetNSPath := ""
  SharedENIMACAddress := "01:23:45:67:89:ab"
  SharedENILinkName := "Ethernet 2"
  ENIIPAddresses := [{ ip := .v4 10 0 0 5, prefixLen := 24 }]
  GatewayIPAddress := .v4 10 0 0 1
  VPCCIDRs := none
  ServiceCIDR := ""
  DNSSuffixSearchList := []
  DNSServers := [] }

/-- `nwBase` with a non-host bridge namespace path. -/
def nwBadBridge : Network := { nwBase with BridgeNetNSPath := "container-ns" }

/-- An Infra-classified endpoint input (empty namespace reference). -/
def epInfra : Endpoint := {
  ContainerID := "c1"
  NetNSName := ""
  IPAddresses := [{ ip := .v4 10 0 0 6, prefixLen := 24 }]
  MACAddress := none }

/-- An App-classified endpoint input sharing container c0's namespace. -/
def epApp : Endpoint := { epInfra with ContainerID := "c2", NetNSName := "container:c0" }

/-- A NamespaceHandle-classified endpoint input. -/
def epHcn : Endpoint := { epInfra with ContainerID := "c3", NetNSName := "ns-abc" }

/-- A stored HNS endpoint record named for container c0's namespace
identifier, as an Infra create would have left it. -/
def storedAppEndpoint : HNSEndpoint := {
  Name := "cid-c0"
  Id := "eid-app"
  VirtualNetworkName := "vpcbr0123456789ab"
  DNSSuffix := ""
  DNSServerList := ""
  IPAddress := .v4 10 0 0 6
  PrefixLength := 24
  MacAddress := "aa:bb:cc:dd:ee:ff"
  Policies := [HNSPolicy.outboundNat ["10.0.0.0/24"]] }

/-- Stored records matching `epInfra` and `epHcn`. -/
def storedInfraEndpoint : HNSEndpoint :=
  { storedAppEndpoint with Name := "cid-c1", Id := "eid-infra" }

/-- Stored record matching `epHcn`. -/
def storedHcnEndpoint : HNSEndpoint :=
  { storedAppEndpoint with Name := "cid-ns-abc", Id := "eid-hcn" }

/-- An HNS state holding the three stored endpoint records. -/
def storedState : HNSState :=
  { networks := [], endpoints := [storedAppEndpoint, storedInfraEndpoint, storedHcnEndpoint] }

/-! ### Theorems settling the claims. -/

/-- **C3.** The namespace classifier is a pure function of the
namespace-reference string and the container identifier, with exactly the
spec's three cases: ""/"none" → Infra with the container id; a
"container:" prefix → App with the prefix stripped; any other non-empty
string → NamespaceHandle with the string itself. -/
theorem claim_c3_namespace_classifier (ep : Endpoint) :
    getNamespaceIdentifier ep = specNamespaceClassification ep.NetNSName ep.ContainerID := by
  unfold getNamespaceIdentifier specNamespaceClassification trimPrefixStr
  by_cases h1 : ep.NetNSName = "none" <;> by_cases h2 : ep.NetNSName = "" <;>
    by_cases h3 : (hasPrefixStr ep.NetNSName "container:" = true) <;>
    simp [h1, h2, h3]

/-- The supported-version test of lines 437-438 accepts exactly the
versions not lexicographically below the minimum. -/
theorem hnsVersionSupported_iff (v : HNSVersion) :
    hnsVersionSupported v = true ↔ ¬ versionLexLt v hnsMinVersion := by
  simp only [hnsVersionSupported, versionLexLt, decide_eq_true_eq]
  omega

/-- **C7.** For every reported version, the version gate rejects (with
the descriptive error) exactly the versions lexicographically below the
fixed minimum and accepts every other version — in particular a version
equal to the minimum. -/
theorem claim_c7_version_gate (o : HNSOracle) (v : HNSVersion)
    (h : o.getHNSGlobals = .ok v) :
    ((checkHNSVersion o).1 =
        .error (GoError.errorf "HNS is older than the minimum supported version")
      ↔ versionLexLt v hnsMinVersion)
    ∧ ((checkHNSVersion o).1 = .ok () ↔ ¬ versionLexLt v hnsMinVersion) := by
  unfold checkHNSVersion
  rw [h]
  by_cases hs : hnsVersionSupported v = true
  · have := (hnsVersionSupported_iff v).mp hs
    simp [hs, this]
  · have := (hnsVersionSupported_iff v).not.mp hs
    simp only [not_not] at this
    simp [hs, this]

/-- Witness for C7: the minimum version itself is accepted. -/
theorem claim_c7_version_gate_witness :
    (checkHNSVersion baseOracle).1 = .ok () :=
  ((claim_c7_version_gate baseOracle { Major := 7, Minor := 2 } rfl).2).mpr (by decide)

/-- **C4.** When the backing interface has an address, the OutboundNAT
exception list is: the interface's own subnet prefix when no
virtual-network CIDR list is configured, otherwise every configured
virtual-network CIDR in order, with the service CIDR appended at the end
when one is configured. -/
theorem claim_c4_snat_exceptions (nw : Network) (a0 : IPNet) (rest : List IPNet)
    (h : nw.ENIIPAddresses = a0 :: rest) :
    computeSnatExceptions nw = .ok (
      (match nw.VPCCIDRs with
       | none => [(GetSubnetPrefix a0).render]
       | some cidrs => cidrs.map IPNet.render)
      ++ (if nw.ServiceCIDR = "" then [] else [nw.ServiceCIDR])) := by
  unfold computeSnatExceptions goIndex
  cases hv : nw.VPCCIDRs <;>
    by_cases hs : nw.ServiceCIDR = "" <;>
    simp [hv, hs, h]

/-- Witness for C4, on the spec's own two examples: interface subnet
10.0.0.0/24 with no VPC CIDRs gives exactly that prefix; the two VPC
CIDRs with service CIDR 172.20.0.0/16 give all three in order. -/
theorem claim_c4_snat_exceptions_witness :
    computeSnatExceptions nwBase = .ok ["10.0.0.0/24"]
    ∧ computeSnatExceptions
        { nwBase with
            VPCCIDRs := some [{ ip := .v4 10 0 0 0, prefixLen := 16 },
                              { ip := .v4 10 1 0 0, prefixLen := 16 }],
            ServiceCIDR := "172.20.0.0/16" } =
      .ok ["10.0.0.0/16", "10.1.0.0/16", "172.20.0.0/16"] := by
  constructor
  · rw [claim_c4_snat_exceptions nwBase { ip := .v4 10 0 0 5, prefixLen := 24 } [] rfl]
    rfl
  · rw [claim_c4_snat_exceptions
      { nwBase with
          VPCCIDRs := some [{ ip := .v4 10 0 0 0, prefixLen := 16 },
                            { ip := .v4 10 1 0 0, prefixLen := 16 }],
          ServiceCIDR := "172.20.0.0/16" }
      { ip := .v4 10 0 0 5, prefixLen := 24 } [] rfl]
    rfl

/-- **C8.** The validation at the head of `FindOrCreateEndpoint` rejects
every input carrying more than one address and every input whose single
address is not IPv4, with the validation error and no control-service
call issued. -/
theorem claim_c8_endpoint_address_validation :
    (∀ o s nw ep, ep.IPAddresses.length > 1 →
      FindOrCreateEndpoint o s nw ep =
        (.error (GoError.errorf "Only a single IPv4 address per endpoint is supported on Windows"),
         ep, s, []))
    ∧ (∀ o s nw ep a0, ep.IPAddresses = [a0] → a0.ip.to4 = none →
      FindOrCreateEndpoint o s nw ep =
        (.error (GoError.errorf "Only a single IPv4 address per endpoint is supported on Windows"),
         ep, s, [])) := by
  constructor
  · intro o s nw ep h
    unfold FindOrCreateEndpoint
    rw [if_pos h]
  · intro o s nw ep a0 h h4
    unfold FindOrCreateEndpoint goIndex
    simp [h, h4]

/-- Witness for C8: two IPv4 addresses are rejected, and a single
non-IPv4 address is rejected. -/
theorem claim_c8_endpoint_address_validation_witness :
    FindOrCreateEndpoint baseOracle emptyState nwBase
        { epInfra with IPAddresses := [{ ip := .v4 10 0 0 6, prefixLen := 24 },
                                       { ip := .v4 10 0 0 7, prefixLen := 24 }] } =
      (.error (GoError.errorf "Only a single IPv4 address per endpoint is supported on Windows"),
       { epInfra with IPAddresses := [{ ip := .v4 10 0 0 6, prefixLen := 24 },
                                      { ip := .v4 10 0 0 7, prefixLen := 24 }] },
       emptyState, [])
    ∧ FindOrCreateEndpoint baseOracle emptyState nwBase
        { epInfra with IPAddresses := [{ ip := .v6 "2001:db8::1", prefixLen := 64 }] } =
      (.error (GoError.errorf "Only a single IPv4 address per endpoint is supported on Windows"),
       { epInfra with IPAddresses := [{ ip := .v6 "2001:db8::1", prefixLen := 64 }] },
       emptyState, []) :=
  ⟨claim_c8_endpoint_address_validation.1 baseOracle emptyState nwBase
      { epInfra with IPAddresses := [{ ip := .v4 10 0 0 6, prefixLen := 24 },
                                     { ip := .v4 10 0 0 7, prefixLen := 24 }] }
      (by decide),
   claim_c8_endpoint_address_validation.2 baseOracle emptyState nwBase
      { epInfra with IPAddresses := [{ ip := .v6 "2001:db8::1", prefixLen := 64 }] }
      { ip := .v6 "2001:db8::1", prefixLen := 64 } rfl rfl⟩

/-- **C9.** The validation is not total: for an endpoint whose address
list is empty, the unconditional `ep.IPAddresses[0]` indexing panics
(out-of-bounds access) before any control-service call, and the
validation-error branch is never reached on that input. -/
theorem claim_c9_empty_address_list_panics (o : HNSOracle) (s : HNSState)
    (nw : Network) (ep : Endpoint) (h : ep.IPAddresses = []) :
    FindOrCreateEndpoint o s nw ep =
      (.error (GoError.goPanic "runtime error: index out of range"), ep, s, [])
    ∧ (FindOrCreateEndpoint o s nw ep).1 ≠
      .error (GoError.errorf "Only a single IPv4 address per endpoint is supported on Windows") := by
  have hmain : FindOrCreateEndpoint o s nw ep =
      (.error (GoError.goPanic "runtime error: index out of range"), ep, s, []) := by
    unfold FindOrCreateEndpoint goIndex
    simp [h]

  exact ⟨hmain, by rw [hmain]; simp⟩

/-- Witness for C9: the empty address list panics instead of failing
validation. -/
theorem claim_c9_empty_address_list_panics_witness :
    FindOrCreateEndpoint baseOracle emptyState nwBase { epInfra with IPAddresses := [] } =
      (.error (GoError.goPanic "runtime error: index out of range"),
       { epInfra with IPAddresses := [] }, emptyState, [])
    ∧ (FindOrCreateEndpoint baseOracle emptyState nwBase
        { epInfra with IPAddresses := [] }).1 ≠
      .error (GoError.errorf "Only a single IPv4 address per endpoint is supported on Windows") :=
  claim_c9_empty_address_list_panics baseOracle emptyState nwBase
    { epInfra with IPAddresses := [] } rfl

/-- **C5, counterexample.** As stated, the claim fails: with a supported
version and a non-host bridge namespace, `FindOrCreateNetwork` has
already issued a control-service request (the HNS globals query of the
version check) although its bridge-namespace validation never passes —
the call returns the validation error, yet its trace is not empty. -/
theorem claim_c5_counterexample :
    (FindOrCreateNetwork baseOracle emptyState nwBadBridge).1 =
      .error (GoError.errorf "Bridge must be in host network namespace on Windows")
    ∧ (FindOrCreateNetwork baseOracle emptyState nwBadBridge).2.2 = [HNSCall.getHNSGlobals]
    ∧ (FindOrCreateNetwork baseOracle emptyState nwBadBridge).2.2 ≠ [] :=
  ⟨rfl, rfl, by decide⟩

/-- **C5, amended.** The only control-service request issued before the
validation checks have passed is the version query itself: when the
bridge-namespace validation fails, `FindOrCreateNetwork`'s trace is
exactly the globals query; and an endpoint input failing address
validation produces an empty trace. -/
theorem claim_c5_validation_before_control_calls :
    (∀ o s nw, nw.BridgeNetNSPath ≠ "" →
      (FindOrCreateNetwork o s nw).2.2 = [HNSCall.getHNSGlobals])
    ∧ (∀ o s nw v, o.getHNSGlobals = .ok v → hnsVersionSupported v = false →
      (FindOrCreateNetwork o s nw).2.2 = [HNSCall.getHNSGlobals])
    ∧ (∀ o s nw ep, ep.IPAddresses.length > 1 →
      (FindOrCreateEndpoint o s nw ep).2.2.2 = [])
    ∧ (∀ o s nw ep a0, ep.IPAddresses = [a0] → a0.ip.to4 = none →
      (FindOrCreateEndpoint o s nw ep).2.2.2 = []) := by
  refine ⟨?_, ?_, ?_, ?_⟩
  · intro o s nw h
    unfold FindOrCreateNetwork checkHNSVersion
    cases hg : o.getHNSGlobals with
    | error e => simp
    | ok v => by_cases hs : hnsVersionSupported v = true <;> simp [hs, h]
  · intro o s nw v hg hs
    unfold FindOrCreateNetwork checkHNSVersion
    simp [hg, hs]
  · intro o s nw ep h
    unfold FindOrCreateEndpoint
    rw [if_pos h]
  · intro o s nw ep a0 h h4
    unfold FindOrCreateEndpoint goIndex
    simp [h, h4]

/-- Witness for the amended C5, at concrete inputs for all three parts. -/
theorem claim_c5_validation_before_control_calls_witness :
    (FindOrCreateNetwork baseOracle emptyState nwBadBridge).2.2 = [HNSCall.getHNSGlobals]
    ∧ (FindOrCreateNetwork
        { baseOracle with getHNSGlobals := .ok { Major := 7, Minor := 1 } }
        emptyState nwBase).2.2 = [HNSCall.getHNSGlobals]
    ∧ (FindOrCreateEndpoint baseOracle emptyState nwBase
        { epInfra with IPAddresses := [{ ip := .v4 10 0 0 6, prefixLen := 24 },
                                       { ip := .v4 10 0 0 7, prefixLen := 24 }] }).2.2.2 = []
    ∧ (FindOrCreateEndpoint baseOracle emptyState nwBase
        { epInfra with IPAddresses := [{ ip := .v6 "2001:db8::1", prefixLen := 64 }] }).2.2.2 = [] :=
  ⟨claim_c5_validation_before_control_calls.1 baseOracle emptyState nwBadBridge (by decide),
   claim_c5_validation_before_control_calls.2.1
     { baseOracle with getHNSGlobals := .ok { Major := 7, Minor := 1 } }
     emptyState nwBase { Major := 7, Minor := 1 } rfl (by decide),
   claim_c5_validation_before_control_calls.2.2.1 baseOracle emptyState nwBase
     { epInfra with IPAddresses := [{ ip := .v4 10 0 0 6, prefixLen := 24 },
                                    { ip := .v4 10 0 0 7, prefixLen := 24 }] } (by decide),
   claim_c5_validation_before_control_calls.2.2.2 baseOracle emptyState nwBase
     { epInfra with IPAddresses := [{ ip := .v6 "2001:db8::1", prefixLen := 64 }] }
     { ip := .v6 "2001:db8::1", prefixLen := 64 } rfl rfl⟩

/-- **C6.** `FindOrCreateNetwork` is idempotent: past the version and
bridge checks, if a network with the deterministically computed name
already exists the call returns success having issued no create or
mutation request (its trace is exactly the globals query and the name
lookup, and the state is unchanged); and two identical calls both
succeed while leaving exactly one network with that name. -/
theorem claim_c6_network_create_idempotent (o : HNSOracle) (s : HNSState) (nw : Network)
    (v : HNSVersion) (hg : o.getHNSGlobals = .ok v) (hsup : hnsVersionSupported v = true)
    (hbr : nw.BridgeNetNSPath = "") :
    (∀ found, s.networks.find? (fun n => n.Name == generateHNSNetworkName nw) = some found →
      FindOrCreateNetwork o s nw =
        (.ok (), s, [HNSCall.getHNSGlobals,
                     HNSCall.getNetworkByName (generateHNSNetworkName nw)]))
    ∧ (∀ a0 rest newId,
        s.networks.find? (fun n => n.Name == generateHNSNetworkName nw) = none →
        nw.ENIIPAddresses = a0 :: rest →
        o.createNetworkResult (hnsNetworkSpec nw a0) = .ok newId →
        (FindOrCreateNetwork o s nw).1 = .ok ()
        ∧ FindOrCreateNetwork o (FindOrCreateNetwork o s nw).2.1 nw =
            (.ok (), (FindOrCreateNetwork o s nw).2.1,
             [HNSCall.getHNSGlobals,
              HNSCall.getNetworkByName (generateHNSNetworkName nw)])
        ∧ ((FindOrCreateNetwork o s nw).2.1.networks.filter
            (fun n => n.Name == generateHNSNetworkName nw)).length = 1) := by
  constructor
  · intro found hfound
    unfold FindOrCreateNetwork checkHNSVersion getHNSNetworkByName
    simp [hg, hsup, hbr, hfound]
  · intro a0 rest newId hnone ha hcr
    have hr1 : FindOrCreateNetwork o s nw =
        (.ok (),
         { s with networks := s.networks ++ [{ hnsNetworkSpec nw a0 with Id := newId }] },
         [HNSCall.getHNSGlobals,
          HNSCall.getNetworkByName (generateHNSNetworkName nw),
          HNSCall.networkRequest "POST" ""]) := by
      unfold FindOrCreateNetwork checkHNSVersion getHNSNetworkByName goIndex
      simp [hg, hsup, hbr, hnone, ha, hcr]
    have hfil : s.networks.filter (fun n => n.Name == generateHNSNetworkName nw) = [] := by
      rw [List.filter_eq_nil_iff]
      intro a ha'
      have := List.find?_eq_none.mp hnone a ha'
      simpa using this
    refine ⟨by rw [hr1], ?_, ?_⟩
    · rw [hr1]
      unfold FindOrCreateNetwork checkHNSVersion getHNSNetworkByName
      simp [hg, hsup, hbr, List.find?_append, hnone, hnsNetworkSpec]
    · rw [hr1]
      simp [List.filter_append, hfil, hnsNetworkSpec]

/-- Witness for C6: a concrete pair of identical network-create calls,
the second finding the network the first created. -/
theorem claim_c6_network_create_idempotent_witness :
    (FindOrCreateNetwork baseOracle emptyState nwBase).1 = .ok ()
    ∧ FindOrCreateNetwork baseOracle
        (FindOrCreateNetwork baseOracle emptyState nwBase).2.1 nwBase =
        (.ok (), (FindOrCreateNetwork baseOracle emptyState nwBase).2.1,
         [HNSCall.getHNSGlobals,
          HNSCall.getNetworkByName (generateHNSNetworkName nwBase)])
    ∧ (((FindOrCreateNetwork baseOracle emptyState nwBase).2.1).networks.filter
        (fun n => n.Name == generateHNSNetworkName nwBase)).length = 1 :=
  (claim_c6_network_create_idempotent baseOracle emptyState nwBase
      { Major := 7, Minor := 2 } rfl (by decide) rfl).2
    { ip := .v4 10 0 0 5, prefixLen := 24 } [] "netid-1" rfl rfl rfl

/-- **C1.** When the endpoint create succeeds but the subsequent attach
(hot-attach for Infra, namespace-add for NamespaceHandle) fails,
`FindOrCreateEndpoint` issues a compensating DELETE of the just-created
endpoint and returns the original attach error; since the oracle's
delete outcome is universally quantified and unconstrained, the
rollback's own failure never replaces the attach error in the result. -/
theorem claim_c1_attach_failure_rollback (o : HNSOracle) (s : HNSState) (nw : Network)
    (ep : Endpoint) (a0 : IPNet) (spec : HNSEndpoint) (newId newMac : String)
    (attachErr : GoError)
    (haddr : ep.IPAddresses = [a0])
    (hv4 : a0.ip.to4 ≠ none)
    (hns : (getNamespaceIdentifier ep).1 = nsType.infraContainerNS ∨
           (getNamespaceIdentifier ep).1 = nsType.hcnNamespace)
    (hlook : s.endpoints.find?
        (fun e => e.Name == generateHNSEndpointName ep (getNamespaceIdentifier ep).2) = none)
    (hspec : buildHNSEndpointSpec nw
        (generateHNSEndpointName ep (getNamespaceIdentifier ep).2) a0 = .ok spec)
    (hcreate : o.createEndpointResult spec = .ok (newId, newMac))
    (hatt : (attachNewEndpoint o (getNamespaceIdentifier ep).1
        { spec with Id := newId, MacAddress := newMac }
        ep.ContainerID (getNamespaceIdentifier ep).2).1 = .error attachErr) :
    (FindOrCreateEndpoint o s nw ep).1 = .error attachErr
    ∧ HNSCall.endpointRequest "DELETE" newId ∈ (FindOrCreateEndpoint o s nw ep).2.2.2 := by
  unfold FindOrCreateEndpoint getHNSEndpointByName goIndex
  rcases hns with h | h <;>
    rw [h] at hatt <;>
    cases hdel : o.deleteEndpointResult newId <;>
    simp [haddr, hv4, h, hlook, hspec, hcreate, hatt, hdel]

/-- Witness for C1: an Infra endpoint whose creation succeeds, whose
hot-attach fails, and whose rollback delete is issued while the attach
error is returned. -/
theorem claim_c1_attach_failure_rollback_witness :
    (FindOrCreateEndpoint attachFailOracle emptyState nwBase epInfra).1 =
      .error (GoError.hnsFailure "attach failed")
    ∧ HNSCall.endpointRequest "DELETE" "epid-1" ∈
      (FindOrCreateEndpoint attachFailOracle emptyState nwBase epInfra).2.2.2 :=
  claim_c1_attach_failure_rollback attachFailOracle emptyState nwBase epInfra
    { ip := .v4 10 0 0 6, prefixLen := 24 }
    { Name := "cid-c1", Id := "", VirtualNetworkName := "vpcbr0123456789ab",
      DNSSuffix := "", DNSServerList := "", IPAddress := .v4 10 0 0 6,
      PrefixLength := 24, MacAddress := "",
      Policies := [HNSPolicy.outboundNat ["10.0.0.0/24"]] }
    "epid-1" "aa:bb:cc:dd:ee:ff" (GoError.hnsFailure "attach failed")
    rfl (by decide) (Or.inl rfl) rfl (by rfl) rfl rfl

/-- **C10.** On the existing-endpoint path with an App-classified
namespace, `FindOrCreateEndpoint` writes the stored endpoint's MAC
address into the endpoint's `MACAddress` output field even when the
legacy hot-attach fails: the caller receives the attach error while the
field has already been mutated. -/
theorem claim_c10_mac_written_on_failed_reattach (o : HNSOracle) (s : HNSState)
    (nw : Network) (ep : Endpoint) (a0 : IPNet) (hnsEp : HNSEndpoint) (e : GoError)
    (haddr : ep.IPAddresses = [a0])
    (hv4 : a0.ip.to4 ≠ none)
    (hns : (getNamespaceIdentifier ep).1 = nsType.appContainerNS)
    (hlook : s.endpoints.find?
        (fun x => x.Name == generateHNSEndpointName ep (getNamespaceIdentifier ep).2) =
        some hnsEp)
    (hatt : o.hotAttachEndpoint ep.ContainerID hnsEp.Id = some e) :
    (FindOrCreateEndpoint o s nw ep).1 = .error e
    ∧ (FindOrCreateEndpoint o s nw ep).2.1.MACAddress = parseMAC hnsEp.MacAddress := by
  unfold FindOrCreateEndpoint getHNSEndpointByName goIndex attachEndpointV1
  simp [haddr, hv4, hns, hlook, hatt]

/-- Witness for C10: re-attaching the stored endpoint to container c2
fails, the attach error is returned, and the MAC output field holds the
stored endpoint's MAC address. -/
theorem claim_c10_mac_written_on_failed_reattach_witness :
    (FindOrCreateEndpoint attachFailOracle storedState nwBase epApp).1 =
      .error (GoError.hnsFailure "attach failed")
    ∧ (FindOrCreateEndpoint attachFailOracle storedState nwBase epApp).2.1.MACAddress =
      parseMAC storedAppEndpoint.MacAddress :=
  claim_c10_mac_written_on_failed_reattach attachFailOracle storedState nwBase epApp
    { ip := .v4 10 0 0 6, prefixLen := 24 } storedAppEndpoint
    (GoError.hnsFailure "attach failed") rfl (by decide) rfl (by rfl) rfl

/-- **C2.** `DeleteEndpoint` on an App-classified endpoint hot-detaches
and returns success without issuing an endpoint DELETE (the shared
endpoint object survives); on an Infra- or NamespaceHandle-classified
endpoint it proceeds to issue the DELETE after detaching. -/
theorem claim_c2_delete_endpoint_by_namespace_type :
    (∀ o s nw ep hnsEp,
      (getNamespaceIdentifier ep).1 = nsType.appContainerNS →
      s.endpoints.find?
          (fun x => x.Name == generateHNSEndpointName ep (getNamespaceIdentifier ep).2) =
          some hnsEp →
      (o.hotDetachEndpoint ep.ContainerID hnsEp.Id = none ∨
        o.hotDetachEndpoint ep.ContainerID hnsEp.Id = some GoError.errComputeSystemDoesNotExist) →
      (DeleteEndpoint o s nw ep).1 = .ok ()
      ∧ (DeleteEndpoint o s nw ep).2.1 = s
      ∧ (DeleteEndpoint o s nw ep).2.2 =
          [HNSCall.getEndpointByName (generateHNSEndpointName ep (getNamespaceIdentifier ep).2),
           HNSCall.hotDetachEndpoint ep.ContainerID hnsEp.Id])
    ∧ (∀ o s nw ep hnsEp,
      (getNamespaceIdentifier ep).1 = nsType.infraContainerNS →
      s.endpoints.find?
          (fun x => x.Name == generateHNSEndpointName ep (getNamespaceIdentifier ep).2) =
          some hnsEp →
      (o.hotDetachEndpoint ep.ContainerID hnsEp.Id = none ∨
        o.hotDetachEndpoint ep.ContainerID hnsEp.Id = some GoError.errComputeSystemDoesNotExist) →
      (DeleteEndpoint o s nw ep).2.2 =
        [HNSCall.getEndpointByName (generateHNSEndpointName ep (getNamespaceIdentifier ep).2),
         HNSCall.hotDetachEndpoint ep.ContainerID hnsEp.Id,
         HNSCall.endpointRequest "DELETE" hnsEp.Id])
    ∧ (∀ o s nw ep hnsEp,
      (getNamespaceIdentifier ep).1 = nsType.hcnNamespace →
      s.endpoints.find?
          (fun x => x.Name == generateHNSEndpointName ep (getNamespaceIdentifier ep).2) =
          some hnsEp →
      (DeleteEndpoint o s nw ep).2.2 =
        [HNSCall.getEndpointByName (generateHNSEndpointName ep (getNamespaceIdentifier ep).2),
         HNSCall.removeNamespaceEndpoint (getNamespaceIdentifier ep).2 hnsEp.Id,
         HNSCall.endpointRequest "DELETE" hnsEp.Id]) := by
  refine ⟨?_, ?_, ?_⟩
  · intro o s nw ep hnsEp hns hlook hdet
    unfold DeleteEndpoint getHNSEndpointByName
    rcases hdet with hd | hd <;> simp [hns, hlook, hd]
  · intro o s nw ep hnsEp hns hlook hdet
    unfold DeleteEndpoint getHNSEndpointByName deleteEndpointObject
    rcases hdet with hd | hd <;>
      cases hdel : o.deleteEndpointResult hnsEp.Id <;>
      simp [hns, hlook, hd, hdel]
  · intro o s nw ep hnsEp hns hlook
    unfold DeleteEndpoint getHNSEndpointByName deleteEndpointObject
    cases hdel : o.deleteEndpointResult hnsEp.Id <;> simp [hns, hlook, hdel]

/-- Witness for C2: the three classifications against the stored state —
App detaches without a DELETE; Infra and NamespaceHandle issue the
DELETE after detaching. -/
theorem claim_c2_delete_endpoint_by_namespace_type_witness :
    ((DeleteEndpoint baseOracle storedState nwBase epApp).1 = .ok ()
      ∧ (DeleteEndpoint baseOracle storedState nwBase epApp).2.1 = storedState
      ∧ (DeleteEndpoint baseOracle storedState nwBase epApp).2.2 =
          [HNSCall.getEndpointByName
            (generateHNSEndpointName epApp (getNamespaceIdentifier epApp).2),
           HNSCall.hotDetachEndpoint epApp.ContainerID storedAppEndpoint.Id])
    ∧ (DeleteEndpoint baseOracle storedState nwBase epInfra).2.2 =
        [HNSCall.getEndpointByName
          (generateHNSEndpointName epInfra (getNamespaceIdentifier epInfra).2),
         HNSCall.hotDetachEndpoint epInfra.ContainerID storedInfraEndpoint.Id,
         HNSCall.endpointRequest "DELETE" storedInfraEndpoint.Id]
    ∧ (DeleteEndpoint baseOracle storedState nwBase epHcn).2.2 =
        [HNSCall.getEndpointByName
          (generateHNSEndpointName epHcn (getNamespaceIdentifier epHcn).2),
         HNSCall.removeNamespaceEndpoint (getNamespaceIdentifier epHcn).2 storedHcnEndpoint.Id,
         HNSCall.endpointRequest "DELETE" storedHcnEndpoint.Id] :=
  ⟨claim_c2_delete_endpoint_by_namespace_type.1 baseOracle storedState nwBase epApp
      storedAppEndpoint rfl (by rfl) (Or.inl rfl),
   claim_c2_delete_endpoint_by_namespace_type.2.1 baseOracle storedState nwBase epInfra
      storedInfraEndpoint rfl (by rfl) (Or.inl rfl),
   claim_c2_delete_endpoint_by_namespace_type.2.2 baseOracle storedState nwBase epHcn
      storedHcnEndpoint rfl (by rfl)⟩

end BridgeWindows
